import Mathlib

/-!
Verification of the medbot repository: a RAG chatbot consisting of a PDF
extractor (prepare_data.py), an ingestion pipeline (ingest_data.py) and a
FastAPI query server (main.py).  External library calls (vector search,
LLM streaming, translation, PDF reading) are modelled as oracle functions
supplied by the environment; the repository's own control flow is embedded
faithfully.
-/

/-- A langchain document: the only field the repository reads is
page_content. -/
structure Doc where
  page_content : String
deriving Repr, DecidableEq

/-- Oracle model of the Chroma vector-store handle: asimilarity_search
takes the query and k and either returns documents or raises. -/
abbrev VectorStore := String → Nat → Except String (List Doc)

/-- Oracle model of the ChatOllama client: astream on a prompt yields a
sequence of chunk contents, optionally followed by a raised exception. -/
abbrev LLM := String → List String × Option String

/-- Model of the constructed PromptTemplate object: format takes the
context and the question and returns the formatted prompt. -/
abbrev Prompt := String → String → String

/-- The module-level mutable globals of main.py. -/
structure ServerState where
  vector_store : Option VectorStore
  llm : Option LLM
  prompt_template : Option Prompt

/-- Globals before startup_event runs (main.py lines 32-34). -/
def initialState : ServerState := ⟨none, none, none⟩

/-- Segment of the fixed prompt template of main.py (lines 74-88) before
the context placeholder. -/
def templateHead : String :=
  "\nYou are ArogyaAi, an AI medical assistant developed by Gunaji. Your role is to provide helpful, safe, and evidence-based medical information.\nYour answers should be helpful but concise.\nYou must answer the user\x27s question based *only* on the context provided below.\nIf the context does not contain the answer, state that you do not have enough information and advise the user to consult a healthcare professional.\nDo not make up information or provide medical advice, diagnoses, or prescriptions.\n\nContext:\n"

/-- Segment of the fixed prompt template between the context placeholder
and the question placeholder. -/
def templateMid : String := "\n\nQuestion:\n"

/-- Segment of the fixed prompt template after the question placeholder. -/
def templateTail : String := "\n\nAnswer:\n"

/-- The PromptTemplate constructed at startup: format substitutes the
context and the question into the fixed template. -/
def fixedPrompt : Prompt := fun ctx q =>
  templateHead ++ ctx ++ templateMid ++ q ++ templateTail

/-- Outcomes of the external constructor calls made inside startup_event:
whether each constructor returns normally, and the objects it returns. -/
structure StartupOracle where
  embeddingOk : Bool
  chromaOk : Bool
  vs : VectorStore
  promptOk : Bool
  llmOk : Bool
  llmClient : LLM

/-- startup_event (main.py lines 53-93).  Returns the globals after the
hook together with true when the hook returned normally and false when an
exception from one of the constructors propagated out of it.  The global
assignments happen one at a time, in source order: vector_store (line 67),
prompt_template (line 89), llm (line 91). -/
def startup_event (dirExists : Bool) (orc : StartupOracle) (s : ServerState) :
    ServerState × Bool :=
  if dirExists = false then (s, true)
  else if orc.embeddingOk = false then (s, false)
  else if orc.chromaOk = false then (s, false)
  else
    let s1 := { s with vector_store := some orc.vs }
    if orc.promptOk = false then (s1, false)
    else
      let s2 := { s1 with prompt_template := some fixedPrompt }
      if orc.llmOk = false then (s2, false)
      else ({ s2 with llm := some orc.llmClient }, true)

/-- The message yielded when the vector store is unset (main.py line 114). -/
def not_initialized_message : String :=
  "Vector store is not initialized. Please check server startup logs."

/-- The fixed disclaimer streamed character by character when retrieval
finds nothing (main.py line 124). -/
def no_context_message : String :=
  "I do not have enough information about that topic to provide an answer. Disclaimer: I am an Al assistant and not a substitute for professional medical advice. Please consult a qualified healthcare provider for any health concerns."

/-- One server-sent event as the generator yields it. -/
def sseEvent (body : String) : String := "data: " ++ body ++ "\n\n"

/-- The event yielded by the except branch (main.py line 142). -/
def errorEvent (e : String) : String := sseEvent ("An error occurred: " ++ e)

/-- Error text for calling format on an unset prompt_template. -/
def noneFormatError : String := "NoneType object has no attribute format"

/-- Error text for calling astream on an unset llm. -/
def noneAstreamError : String := "NoneType object has no attribute astream"

/-- External calls the generator makes: the similarity search with its k,
and the LLM generation with the formatted prompt. -/
inductive ExtCall where
  | search : String → Nat → ExtCall
  | generate : String → ExtCall

/-- stream_chat_response (main.py lines 112-142): returns the list of
yielded events together with the trace of external calls made.  The try
block covers the search, the formatting and the LLM stream; any exception
is caught and converted into a single final error event. -/
def stream_chat_response (s : ServerState) (query : String) :
    List String × List ExtCall :=
  match s.vector_store with
  | none => ([sseEvent not_initialized_message], [])
  | some vs =>
    match vs query 5 with
    | .error e => ([errorEvent e], [.search query 5])
    | .ok docs =>
      if docs.isEmpty then
        (no_context_message.data.map (fun c => sseEvent (String.singleton c)),
         [.search query 5])
      else
        let context_str := String.intercalate "\n\n" (docs.map (·.page_content))
        match s.prompt_template with
        | none => ([errorEvent noneFormatError], [.search query 5])
        | some pt =>
          let formatted_prompt := pt context_str query
          match s.llm with
          | none => ([errorEvent noneAstreamError], [.search query 5])
          | some l =>
            match l formatted_prompt with
            | (chunks, none) =>
              (chunks.map sseEvent, [.search query 5, .generate formatted_prompt])
            | (chunks, some e) =>
              (chunks.map sseEvent ++ [errorEvent e],
               [.search query 5, .generate formatted_prompt])

/-- C1: with the vector store unset, the generator yields exactly one
event, whose body is the not-initialized message, and makes no external
call (no similarity search, no LLM call). -/
theorem claim_C1_uninitialized_single_event (s : ServerState) (q : String)
    (h : s.vector_store = none) :
    stream_chat_response s q = ([sseEvent not_initialized_message], []) := by
  obtain ⟨vso, lo, po⟩ := s
  cases h
  rfl

/-- Witness for C1 at a concrete state and query. -/
theorem claim_C1_witness :
    stream_chat_response initialState "what is flu" =
      ([sseEvent not_initialized_message], []) :=
  claim_C1_uninitialized_single_event initialState "what is flu" rfl

/-- C2: with the vector store set, every exception raised inside the try
block — in the similarity search, in the prompt formatting, in starting
the LLM stream, or partway through the LLM stream — is caught and turns
into exactly one further, final error event; the generator always returns
normally. -/
theorem claim_C2_exceptions_caught (s : ServerState) (q : String)
    (vs : VectorStore) (h : s.vector_store = some vs) :
    (∀ e, vs q 5 = .error e →
      (stream_chat_response s q).1 = [errorEvent e]) ∧
    (∀ docs, vs q 5 = .ok docs → docs.isEmpty = false →
      s.prompt_template = none →
      (stream_chat_response s q).1 = [errorEvent noneFormatError]) ∧
    (∀ docs pt, vs q 5 = .ok docs → docs.isEmpty = false →
      s.prompt_template = some pt → s.llm = none →
      (stream_chat_response s q).1 = [errorEvent noneAstreamError]) ∧
    (∀ docs pt lc chunks e, vs q 5 = .ok docs → docs.isEmpty = false →
      s.prompt_template = some pt → s.llm = some lc →
      lc (pt (String.intercalate "\n\n" (docs.map (·.page_content))) q) =
        (chunks, some e) →
      (stream_chat_response s q).1 = chunks.map sseEvent ++ [errorEvent e]) := by
  obtain ⟨vso, lo, po⟩ := s
  cases h
  refine ⟨?_, ?_, ?_, ?_⟩
  · intro e he
    simp [stream_chat_response, he]
  · intro docs hs hne hp
    cases hp
    simp [stream_chat_response, hs, hne]
  · intro docs pt hs hne hp hl
    cases hp; cases hl
    simp [stream_chat_response, hs, hne]
  · intro docs pt lc chunks e hs hne hp hl hstream
    cases hp; cases hl
    simp [stream_chat_response, hs, hne, hstream]

/-- Concrete vector store whose search always raises. -/
def vsBoom : VectorStore := fun _ _ => .error "boom"

/-- Server state holding the always-raising vector store. -/
def stBoom : ServerState := ⟨some vsBoom, none, none⟩

/-- Witness for C2: a search exception becomes one error event. -/
theorem claim_C2_witness :
    (stream_chat_response stBoom "q").1 = [errorEvent "boom"] :=
  (claim_C2_exceptions_caught stBoom "q" vsBoom rfl).1 "boom" rfl

/-- C3: with the vector store set and an empty retrieval result, the
generator yields exactly one event per character of the fixed disclaimer
message, in order, and nothing else; the only external call is the
similarity search with k = 5. -/
theorem claim_C3_empty_retrieval_disclaimer (s : ServerState) (q : String)
    (vs : VectorStore) (h : s.vector_store = some vs)
    (hs : vs q 5 = .ok []) :
    stream_chat_response s q =
      (no_context_message.data.map (fun c => sseEvent (String.singleton c)),
       [.search q 5]) ∧
    (stream_chat_response s q).1.length = no_context_message.length := by
  obtain ⟨vso, lo, po⟩ := s
  cases h
  have h1 : stream_chat_response ⟨some vs, lo, po⟩ q =
      (no_context_message.data.map (fun c => sseEvent (String.singleton c)),
       [.search q 5]) := by
    simp [stream_chat_response, hs]
  refine ⟨h1, ?_⟩
  rw [h1]
  simp only [List.length_map]
  rfl

/-- Concrete vector store whose search finds nothing. -/
def vsEmpty : VectorStore := fun _ _ => .ok []

/-- Server state holding the empty-result vector store. -/
def stEmpty : ServerState := ⟨some vsEmpty, none, none⟩

/-- Witness for C3 at a concrete state and query. -/
theorem claim_C3_witness :
    stream_chat_response stEmpty "zz" =
      (no_context_message.data.map (fun c => sseEvent (String.singleton c)),
       [.search "zz" 5]) ∧
    (stream_chat_response stEmpty "zz").1.length = no_context_message.length :=
  claim_C3_empty_retrieval_disclaimer stEmpty "zz" vsEmpty rfl rfl

/-- C4: with the vector store set, a non-empty retrieval result, the fixed
prompt template and the LLM in place, and an LLM stream that completes
without error, the generator searches with k = 5, joins the retrieved
texts with a double newline, substitutes context and query into the fixed
template, and emits one event per LLM chunk, in order. -/
theorem claim_C4_retrieval_generation (s : ServerState) (q : String)
    (vs : VectorStore) (docs : List Doc) (lc : LLM) (chunks : List String)
    (h : s.vector_store = some vs)
    (hs : vs q 5 = .ok docs) (hne : docs.isEmpty = false)
    (hp : s.prompt_template = some fixedPrompt) (hl : s.llm = some lc)
    (hstream :
      lc (fixedPrompt (String.intercalate "\n\n" (docs.map (·.page_content))) q) =
        (chunks, none)) :
    stream_chat_response s q =
      (chunks.map sseEvent,
       [.search q 5,
        .generate (templateHead ++
          String.intercalate "\n\n" (docs.map (·.page_content)) ++
          templateMid ++ q ++ templateTail)]) := by
  obtain ⟨vso, lo, po⟩ := s
  cases h; cases hp; cases hl
  simp only [fixedPrompt] at hstream
  simp [stream_chat_response, hs, hne, fixedPrompt, hstream]

/-- Concrete vector store returning one document. -/
def vsOneDoc : VectorStore := fun _ _ => .ok [⟨"ctx1"⟩]

/-- Concrete LLM yielding two chunks and completing. -/
def llmTwoChunks : LLM := fun _ => (["a", "b"], none)

/-- Fully initialized server state for the C4 witness. -/
def stReady : ServerState := ⟨some vsOneDoc, some llmTwoChunks, some fixedPrompt⟩

/-- Witness for C4 at a concrete state, query and LLM stream. -/
theorem claim_C4_witness :
    stream_chat_response stReady "q" =
      ((["a", "b"] : List String).map sseEvent,
       [.search "q" 5,
        .generate (templateHead ++
          String.intercalate "\n\n" (([⟨"ctx1"⟩] : List Doc).map (·.page_content)) ++
          templateMid ++ "q" ++ templateTail)]) :=
  claim_C4_retrieval_generation stReady "q" vsOneDoc [⟨"ctx1"⟩] llmTwoChunks
    ["a", "b"] rfl rfl rfl rfl rfl rfl

/-- Modelled from the spec: the text splitter used by ingest_data.py
(RecursiveCharacterTextSplitter, chunk size 1000, overlap 200) is a
third-party library whose code is not in this repository; the spec
describes it as a fixed-size sliding-window split with chunk size 1000
and 200-character overlap, so consecutive windows start 800 characters
apart and a text of at most 1000 characters is a single chunk. -/
def chunkWindows (l : List Char) : List (List Char) :=
  if l.length ≤ 1000 then [l]
  else l.take 1000 :: chunkWindows (l.drop 800)
termination_by l.length
decreasing_by simp [List.length_drop]; omega

/-- Modelled from the spec: splitting a knowledge-base text into chunks
with chunk size 1000 and overlap 200. -/
def split_text (s : String) : List String :=
  (chunkWindows s.data).map (fun l => ⟨l⟩)

/-- Closed form for the number of windows the sliding-window split
produces on a character list. -/
theorem chunkWindows_length (l : List Char) :
    (chunkWindows l).length = 1 + (l.length - 1000 + 799) / 800 := by
  induction l using chunkWindows.induct with
  | case1 l h =>
    rw [chunkWindows]
    simp only [if_pos h, List.length_singleton]
    omega
  | case2 l h ih =>
    rw [chunkWindows]
    simp only [if_neg h, List.length_cons, ih, List.length_drop]
    omega

/-- C5: the chunk count is the closed-form function of the text length
determined by chunk size 1000 / overlap 200, and a text shorter than 1000
characters yields exactly one chunk, the text itself. -/
theorem claim_C5_chunk_count (s : String) :
    (split_text s).length = 1 + (s.length - 1000 + 799) / 800 ∧
    (s.length < 1000 → split_text s = [s]) := by
  constructor
  · simp only [split_text, List.length_map]
    exact chunkWindows_length s.data
  · intro h
    have hlen : s.data.length ≤ 1000 := by
      have : s.length = s.data.length := rfl
      omega
    have hw : chunkWindows s.data = [s.data] := by
      rw [chunkWindows, if_pos hlen]
    simp only [split_text, hw, List.map_cons, List.map_nil]

/-- Witness for C5: a short text is one chunk. -/
theorem claim_C5_witness : split_text "hi" = ["hi"] :=
  (claim_C5_chunk_count "hi").2 (by decide)

/-- The server globals after startup_event runs on the uninitialized
globals. -/
def startupState (d : Bool) (orc : StartupOracle) : ServerState :=
  (startup_event d orc initialState).1

/-- C10: when startup_event returns normally, initialization is
all-or-nothing: the vector store is set iff the LLM client and the prompt
template are set; when the persisted directory is missing all three stay
unset; and whenever the vector store is set, the prompt template is the
fixed template and the LLM client is the constructed one. -/
theorem claim_C10_all_or_nothing (d : Bool) (orc : StartupOracle)
    (h : (startup_event d orc initialState).2 = true) :
    ((startupState d orc).vector_store.isSome ↔
      ((startupState d orc).llm.isSome ∧
       (startupState d orc).prompt_template.isSome)) ∧
    (d = false → startupState d orc = initialState) ∧
    ((startupState d orc).vector_store.isSome →
      (startupState d orc).prompt_template = some fixedPrompt ∧
      (startupState d orc).llm = some orc.llmClient) := by
  unfold startupState
  rcases orc with ⟨eo, co, v, po, lo, lclient⟩
  cases d <;> cases eo <;> cases co <;> cases po <;> cases lo <;>
    simp_all [startup_event, initialState]

/-- An oracle whose constructors all succeed, for the C10 witness. -/
def orcOk : StartupOracle :=
  ⟨true, true, fun _ _ => .ok [], true, true, fun _ => ([], none)⟩

/-- Witness for C10: after a fully successful startup, passing the
vector-store guard guarantees the template and the client are set. -/
theorem claim_C10_witness :
    (startupState true orcOk).prompt_template = some fixedPrompt ∧
    (startupState true orcOk).llm = some orcOk.llmClient :=
  (claim_C10_all_or_nothing true orcOk rfl).2.2 rfl

/-- The pydantic request body of the translate endpoint (main.py lines
40-43); source_lang defaults to auto when omitted. -/
structure TranslationRequest where
  text : String
  target_lang : String
  source_lang : String := "auto"
deriving Repr, DecidableEq

/-- Oracle model of the GoogleTranslator call: source language, target
language and text to either a translation or a raised exception (a bad
language code raises in the constructor, which the same call models). -/
abbrev Translator := String → String → String → Except String String

/-- The JSON body the translate endpoint returns. -/
inductive TranslateBody where
  | translated_text : String → TranslateBody
  | error : String → TranslateBody
deriving Repr, DecidableEq

/-- translate_text (main.py lines 151-161): HTTP status together with the
JSON body; the try block converts every failure into an error body with
status 200. -/
def translate_text (g : Translator) (req : TranslationRequest) :
    Nat × TranslateBody :=
  match g req.source_lang req.target_lang req.text with
  | .ok r => (200, .translated_text r)
  | .error e => (200, .error e)

/-- Building a TranslationRequest from a JSON body in which source_lang
may be omitted: pydantic fills in the default auto. -/
def mkTranslationRequest (text target_lang : String)
    (source_lang : Option String) : TranslationRequest :=
  { text := text, target_lang := target_lang,
    source_lang := source_lang.getD "auto" }

/-- C8: the translate endpoint always answers 200 — the translated text
under translated_text on success and the failure message under error on
any failure — and an omitted source language defaults to auto. -/
theorem claim_C8_translate_total (g : Translator) (req : TranslationRequest) :
    (translate_text g req).1 = 200 ∧
    (∀ r, g req.source_lang req.target_lang req.text = .ok r →
      (translate_text g req).2 = .translated_text r) ∧
    (∀ e, g req.source_lang req.target_lang req.text = .error e →
      (translate_text g req).2 = .error e) ∧
    (∀ t tl, (mkTranslationRequest t tl none).source_lang = "auto") := by
  refine ⟨?_, ?_, ?_, ?_⟩
  · unfold translate_text
    cases g req.source_lang req.target_lang req.text <;> rfl
  · intro r hr
    simp [translate_text, hr]
  · intro e he
    simp [translate_text, he]
  · intro t tl
    rfl

/-- A translator call that succeeds, for the C8 witness. -/
def gOk : Translator := fun _ _ _ => .ok "hola"

/-- A request built without a source language, for the C8 witness. -/
def reqEs : TranslationRequest := mkTranslationRequest "hello" "es" none

/-- Witness for C8: a successful call yields the translated-text body. -/
theorem claim_C8_witness :
    (translate_text gOk reqEs).2 = .translated_text "hola" :=
  (claim_C8_translate_total gOk reqEs).2.1 "hola" rfl

/-- Result of PdfReader plus the per-page extract_text loop on one file:
the page texts obtained before any failure, and the exception message when
one was raised (by the reader constructor or partway through the pages). -/
structure PdfReadResult where
  pages : List String
  failure : Option String
deriving Repr, DecidableEq

/-- Environment of prepare_data.py: whether the source directory exists,
its file listing, and the outcome of reading each file. -/
structure PdfDirEnv where
  dirExists : Bool
  listing : List String
  read : String → PdfReadResult

/-- Source directory constant of prepare_data.py (line 5). -/
def PDF_SOURCE_DIR : String := "medical_data"

/-- Lowercasing a file name character by character, as str.lower does on
ASCII names. -/
def lowerName (f : String) : String := ⟨f.data.map Char.toLower⟩

/-- The case-insensitive .pdf filter of prepare_data.py line 25: the
lowercased name ends with .pdf. -/
def isPdfName (f : String) : Bool := ".pdf".data.isSuffixOf (lowerName f).data

/-- The page loop of prepare_data.py lines 36-39: every page whose
extracted text is non-falsy contributes its text followed by a blank
line. -/
def pageConcat (pages : List String) : String :=
  String.join ((pages.filter (fun t => t != "")).map (fun t => t ++ "\n\n"))

/-- Plain concatenation of a list of strings. -/
def concatTexts : List String → String
  | [] => ""
  | t :: ts => t ++ concatTexts ts

/-- Console message: scanning announcement (line 20). -/
def scanningMsg (d : String) : String :=
  "Scanning for PDF files in " ++ d ++ "..."

/-- Console message: source directory missing (line 22). -/
def dirMissingMsg (d : String) : String :=
  "Error: Directory " ++ d ++ " not found. Please create it and add your medical PDFs."

/-- Console message: no PDF files in the directory (line 27). -/
def noPdfMsg (d : String) : String :=
  "No PDF files found in " ++ d ++ "."

/-- Console message: how many PDFs were found (line 30). -/
def foundMsg (n : Nat) : String :=
  "Found " ++ toString n ++ " PDF(s). Extracting text..."

/-- Console message: one file extracted successfully (line 40). -/
def okMsg (f : String) : String :=
  " - Successfully extracted text from " ++ f

/-- Console message: one file failed and was skipped (line 42). -/
def failMsg (f e : String) : String :=
  " - Could not read " ++ f ++ ": " ++ e

/-- Console message: output file written (line 53). -/
def savedMsg : String :=
  "Successfully extracted and saved text to knowledge_base.txt."

/-- Console message: total character count (line 54). -/
def totalCharsMsg (n : Nat) : String :=
  "Total characters extracted: " ++ toString n

/-- Console message: nothing extracted, exiting (line 56). -/
def noTextMsg : String := "No text was extracted. Exiting."

/-- One iteration of the extraction loop (lines 32-42): the accumulated
text and console log after processing one more file.  On failure the
pages read before the exception stay in the accumulator and the loop
continues. -/
def pdfStep (read : String → PdfReadResult) (acc : String × List String)
    (f : String) : String × List String :=
  let r := read f
  match r.failure with
  | none => (acc.1 ++ pageConcat r.pages, acc.2 ++ [okMsg f])
  | some e => (acc.1 ++ pageConcat r.pages, acc.2 ++ [failMsg f e])

/-- The console line the loop prints for one file. -/
def fileLogEntry (f : String) (r : PdfReadResult) : String :=
  match r.failure with
  | none => okMsg f
  | some e => failMsg f e

/-- extract_text_from_pdfs (prepare_data.py lines 9-43): extracted text
and console log. -/
def extract_text_from_pdfs (pdf_dir : String) (env : PdfDirEnv) :
    String × List String :=
  if env.dirExists = false then
    ("", [scanningMsg pdf_dir, dirMissingMsg pdf_dir])
  else
    let pdf_files := env.listing.filter isPdfName
    if pdf_files.isEmpty then
      ("", [scanningMsg pdf_dir, noPdfMsg pdf_dir])
    else
      pdf_files.foldl (pdfStep env.read)
        ("", [scanningMsg pdf_dir, foundMsg pdf_files.length])

/-- main of prepare_data.py (lines 45-56): the content written to the
output file (none when nothing is written) and the console log. -/
def prepare_main (env : PdfDirEnv) : Option String × List String :=
  let r := extract_text_from_pdfs PDF_SOURCE_DIR env
  if r.1 ≠ "" then
    (some r.1, r.2 ++ [savedMsg, totalCharsMsg r.1.length])
  else
    (none, r.2 ++ [noTextMsg])

/-- One extraction step rewritten in closed form. -/
theorem pdfStep_eq (read : String → PdfReadResult) (acc : String × List String)
    (f : String) :
    pdfStep read acc f =
      (acc.1 ++ pageConcat (read f).pages, acc.2 ++ [fileLogEntry f (read f)]) := by
  cases hr : (read f).failure <;> simp [pdfStep, fileLogEntry, hr]

/-- The extraction fold in closed form: text and log accumulate one entry
per file, independently of failures. -/
theorem pdfFold_eq (read : String → PdfReadResult) (files : List String)
    (acc : String) (lg : List String) :
    files.foldl (pdfStep read) (acc, lg) =
      (acc ++ concatTexts (files.map (fun f => pageConcat (read f).pages)),
       lg ++ files.map (fun f => fileLogEntry f (read f))) := by
  induction files generalizing acc lg with
  | nil => simp [concatTexts]
  | cons f fs ih =>
    simp only [List.foldl_cons, pdfStep_eq, List.map_cons, concatTexts]
    rw [ih]
    simp [String.append_assoc, List.append_assoc]

/-- C6: when the source directory does not exist, when it holds no file
with a .pdf extension, or when extraction yields no text, the extractor
writes no output file and reports the condition on the console; the
function is total, so nothing is raised. -/
theorem claim_C6_no_output_on_empty (env : PdfDirEnv) :
    (env.dirExists = false →
      prepare_main env =
        (none, [scanningMsg PDF_SOURCE_DIR, dirMissingMsg PDF_SOURCE_DIR,
                noTextMsg])) ∧
    (env.dirExists = true → env.listing.filter isPdfName = [] →
      prepare_main env =
        (none, [scanningMsg PDF_SOURCE_DIR, noPdfMsg PDF_SOURCE_DIR,
                noTextMsg])) ∧
    ((extract_text_from_pdfs PDF_SOURCE_DIR env).1 = "" →
      (prepare_main env).1 = none ∧
      (prepare_main env).2 =
        (extract_text_from_pdfs PDF_SOURCE_DIR env).2 ++ [noTextMsg]) := by
  refine ⟨?_, ?_, ?_⟩
  · intro h
    simp [prepare_main, extract_text_from_pdfs, h]
  · intro h1 h2
    simp [prepare_main, extract_text_from_pdfs, h1, h2]
  · intro h
    simp [prepare_main, h]

/-- Concrete environment with a missing source directory. -/
def envNoDir : PdfDirEnv := ⟨false, [], fun _ => ⟨[], none⟩⟩

/-- Witness for C6: a missing directory yields no output file. -/
theorem claim_C6_witness :
    prepare_main envNoDir =
      (none, [scanningMsg PDF_SOURCE_DIR, dirMissingMsg PDF_SOURCE_DIR,
              noTextMsg]) :=
  (claim_C6_no_output_on_empty envNoDir).1 rfl

/-- Concrete environment: one PDF whose two pages both extract text. -/
def envTwoPages : PdfDirEnv :=
  ⟨true, ["a.pdf"], fun _ => ⟨["p1", "p2"], none⟩⟩

/-- C9 counterexample: the code does not join page texts with a blank-line
separator in the intercalation sense — every page, the last one included,
is followed by the separator, so a file with pages p1 and p2 yields
p1, blank line, p2, blank line, not p1, blank line, p2. -/
theorem claim_C9_counterexample :
    (extract_text_from_pdfs "medical_data" envTwoPages).1 ≠
      String.intercalate "\n\n"
        ((envTwoPages.listing.filter isPdfName).map
          (fun f => String.intercalate "\n\n" (envTwoPages.read f).pages)) := by
  decide

/-- C9 as amended: exactly the files whose lowercased names end in .pdf
are processed, in listing order; each one contributes every page whose
extracted text is non-empty, the text followed by a blank line; the
per-file texts are concatenated directly; a failing file contributes the
pages read before the failure and one logged failure line, and processing
continues with the remaining files. -/
theorem claim_C9_amended_extraction (pdf_dir : String) (env : PdfDirEnv)
    (h1 : env.dirExists = true)
    (h2 : env.listing.filter isPdfName ≠ []) :
    extract_text_from_pdfs pdf_dir env =
      (concatTexts ((env.listing.filter isPdfName).map
          (fun f => pageConcat (env.read f).pages)),
       scanningMsg pdf_dir ::
         foundMsg (env.listing.filter isPdfName).length ::
         (env.listing.filter isPdfName).map
           (fun f => fileLogEntry f (env.read f))) := by
  rcases env with ⟨de, ls, rd⟩
  cases h1
  simp only [extract_text_from_pdfs] at h2 ⊢
  simp only [List.isEmpty_iff] at *
  rw [if_neg (by simp)]
  rw [if_neg (by exact fun hh => h2 (by simpa using hh))]
  rw [pdfFold_eq]
  simp

/-- Concrete environment with an uppercase PDF, a non-PDF file, and a PDF
that fails partway through. -/
def envMixed : PdfDirEnv :=
  ⟨true, ["A.PDF", "notes.txt", "b.pdf"],
   fun f => if f = "b.pdf" then ⟨["x"], some "bad xref"⟩ else ⟨["p"], none⟩⟩

/-- Witness for the amended C9 at a concrete environment. -/
theorem claim_C9_witness :
    extract_text_from_pdfs "medical_data" envMixed =
      (concatTexts ((envMixed.listing.filter isPdfName).map
          (fun f => pageConcat (envMixed.read f).pages)),
       scanningMsg "medical_data" ::
         foundMsg (envMixed.listing.filter isPdfName).length ::
         (envMixed.listing.filter isPdfName).map
           (fun f => fileLogEntry f (envMixed.read f))) :=
  claim_C9_amended_extraction "medical_data" envMixed rfl (by decide)

/-- Environment of ingest_data.py: the TextLoader.load outcome, the
embedding-model constructor outcome, and the document count Chroma reports
after writing. -/
structure IngestEnv where
  loadResult : Except String (List Doc)
  embedResult : Except String Unit
  storedCount : List String → Nat

/-- Result of running ingest_data.main: the chunk texts handed to
Chroma.from_documents (none when it was never called, so the persisted
collection is untouched), the console log, and the message of an exception
that propagated uncaught (none when the run ended normally). -/
structure IngestResult where
  written : Option (List String)
  log : List String
  raised : Option String
deriving Repr, DecidableEq

/-- Console message: ingestion banner (ingest_data.py line 16). -/
def startIngestMsg : String := "--- Starting Data Ingestion Process ---"

/-- Console message: loading the knowledge base failed (line 23). -/
def loadErrMsg (e : String) : String :=
  "Error loading knowledge base file: " ++ e

/-- Console message: knowledge base loaded (line 21). -/
def loadedMsg : String := "Successfully loaded knowledge_base.txt."

/-- Console message: chunk count diagnostic (line 28). -/
def splitMsg (n : Nat) : String :=
  "Split document into " ++ toString n ++ " chunks."

/-- Console message: stored-document count diagnostic (line 52). -/
def doneMsg (n : Nat) : String :=
  "Vector store created with " ++ toString n ++ " documents."

/-- main of ingest_data.py (lines 15-53): load, split, embed, write.  The
try block covers only the load; a load failure is reported and the
function returns before splitting, embedding or writing. -/
def ingest_main (env : IngestEnv) : IngestResult :=
  match env.loadResult with
  | .error e => ⟨none, [startIngestMsg, loadErrMsg e], none⟩
  | .ok docs =>
    let texts := (docs.map (fun d => split_text d.page_content)).flatten
    match env.embedResult with
    | .error e =>
      ⟨none, [startIngestMsg, loadedMsg, splitMsg texts.length], some e⟩
    | .ok _ =>
      ⟨some texts,
       [startIngestMsg, loadedMsg, splitMsg texts.length,
        doneMsg (env.storedCount texts)],
       none⟩

/-- C7: when loading the knowledge-base file fails, ingest_main reports
the failure on the console and returns with nothing handed to the vector
store: the log stops at the load error (no split, embed or write
diagnostics), nothing is written, and no exception escapes. -/
theorem claim_C7_load_failure_aborts (env : IngestEnv) (e : String)
    (h : env.loadResult = .error e) :
    ingest_main env = ⟨none, [startIngestMsg, loadErrMsg e], none⟩ := by
  rcases env with ⟨lr, er, sc⟩
  cases h
  rfl

/-- Concrete environment whose knowledge-base file is absent. -/
def envLoadFail : IngestEnv := ⟨.error "file missing", .ok (), fun _ => 0⟩

/-- Witness for C7 at a concrete environment. -/
theorem claim_C7_witness :
    ingest_main envLoadFail =
      ⟨none, [startIngestMsg, loadErrMsg "file missing"], none⟩ :=
  claim_C7_load_failure_aborts envLoadFail "file missing" rfl
